import Mathlib

/-!
Shallow embedding of `custom_components/fritzbox/__init__.py` (AVM
FRITZ!SmartHome integration for Home Assistant) and proofs about it.

Strings from the Python source are modelled as `List Char`; Python's
substring test `pat in s` becomes the list-infix relation `<:+:`;
Python dicts keyed by strings become association lists.
-/

namespace Fritzbox

/-- Modelled from the spec: the integration domain constant `DOMAIN`
lives in `const.py`, which is not part of the sources; the claims only
use it as an opaque string. -/
def DOMAIN : List Char := "fritzbox".data

/-- Home Assistant constant `BINARY_SENSOR_DOMAIN` (external to this
repository): the binary-sensor platform domain string. -/
def BINARY_SENSOR_DOMAIN : List Char := "binary_sensor".data

/-- Home Assistant constant `UnitOfTemperature.CELSIUS` (external to this
repository): the Celsius unit string. -/
def CELSIUS : List Char := "°C".data

/-- Config-entry data used by `async_setup_entry`: host, username,
password (`entry.data[CONF_HOST]` etc.). -/
structure ConfigEntry where
  host : List Char
  user : List Char
  password : List Char
deriving DecidableEq

/-- Exceptions the vendor-client login call can raise, as seen by the
`try` block of `async_setup_entry`: `requests.exceptions.ConnectionError`,
`pyfritzhome.LoginError`, or any other exception (identified by name). -/
inductive VendorException where
  | requestConnectionError : VendorException
  | loginError : VendorException
  | other : List Char → VendorException
deriving DecidableEq

/-- Outcome of the login phase of `async_setup_entry`: the login either
succeeds, or one of the two translated host exceptions is raised (each
chained to its cause via `raise ... from err`), or the original
exception propagates uncaught. -/
inductive SetupOutcome where
  | ok : SetupOutcome
  | raisedConfigEntryNotReady : VendorException → SetupOutcome
  | raisedConfigEntryAuthFailed : VendorException → SetupOutcome
  | propagated : VendorException → SetupOutcome
deriving DecidableEq

/-- The `try/except` block around `fritz.login` in `async_setup_entry`:
`except RequestConnectionError as err: raise ConfigEntryNotReady from err`,
`except LoginError as err: raise ConfigEntryAuthFailed from err`,
any other exception propagates. -/
def setupLoginPhase (r : Except VendorException Unit) : SetupOutcome :=
  match r with
  | .ok _ => .ok
  | .error .requestConnectionError => .raisedConfigEntryNotReady .requestConnectionError
  | .error .loginError => .raisedConfigEntryAuthFailed .loginError
  | .error e => .propagated e

/-- `async_setup_entry` restricted to its login phase: `fritz.login` is a
blocking call on the client built from the entry data, modelled as a
function from the config entry to a result. -/
def async_setup_entry_login (login : ConfigEntry → Except VendorException Unit)
    (entry : ConfigEntry) : SetupOutcome :=
  setupLoginPhase (login entry)

/-- C1: for every config entry, if the login call raises a connection
error, setup raises `ConfigEntryNotReady`, chained from the original
error. -/
theorem setup_connection_error_maps_to_not_ready
    (login : ConfigEntry → Except VendorException Unit) (entry : ConfigEntry)
    (h : login entry = .error .requestConnectionError) :
    async_setup_entry_login login entry =
      .raisedConfigEntryNotReady .requestConnectionError := by
  simp [async_setup_entry_login, h, setupLoginPhase]

/-- Witness for C1 at a concrete entry and login function. -/
theorem setup_connection_error_maps_to_not_ready_witness :
    async_setup_entry_login (fun _ => .error .requestConnectionError)
      ⟨"h".data, "u".data, "p".data⟩ =
      .raisedConfigEntryNotReady .requestConnectionError :=
  setup_connection_error_maps_to_not_ready
    (fun _ => .error .requestConnectionError) ⟨"h".data, "u".data, "p".data⟩ rfl

/-- C2: for every config entry, if the login call raises a login error,
setup raises `ConfigEntryAuthFailed`, chained from the original error. -/
theorem setup_login_error_maps_to_auth_failed
    (login : ConfigEntry → Except VendorException Unit) (entry : ConfigEntry)
    (h : login entry = .error .loginError) :
    async_setup_entry_login login entry =
      .raisedConfigEntryAuthFailed .loginError := by
  simp [async_setup_entry_login, h, setupLoginPhase]

/-- Witness for C2 at a concrete entry and login function. -/
theorem setup_login_error_maps_to_auth_failed_witness :
    async_setup_entry_login (fun _ => .error .loginError)
      ⟨"h".data, "u".data, "p".data⟩ =
      .raisedConfigEntryAuthFailed .loginError :=
  setup_login_error_maps_to_auth_failed
    (fun _ => .error .loginError) ⟨"h".data, "u".data, "p".data⟩ rfl

/-- C6: setup translates exactly the two vendor exception types and no
others: any other exception raised by the login call propagates
untranslated, and a translated outcome can only arise from the matching
vendor exception. -/
theorem setup_translates_exactly_two_exceptions
    (login : ConfigEntry → Except VendorException Unit) (entry : ConfigEntry) :
    (∀ n, login entry = .error (.other n) →
        async_setup_entry_login login entry = .propagated (.other n)) ∧
    (∀ c, async_setup_entry_login login entry = .raisedConfigEntryNotReady c →
        login entry = .error .requestConnectionError ∧ c = .requestConnectionError) ∧
    (∀ c, async_setup_entry_login login entry = .raisedConfigEntryAuthFailed c →
        login entry = .error .loginError ∧ c = .loginError) := by
  cases hr : login entry with
  | ok u => simp [async_setup_entry_login, setupLoginPhase, hr]
  | error e => cases e <;> simp [async_setup_entry_login, setupLoginPhase, hr]

/-- Witness for C6: a concrete unrelated exception propagates untranslated. -/
theorem setup_translates_exactly_two_exceptions_witness :
    async_setup_entry_login (fun _ => .error (.other "ValueError".data))
      ⟨"h".data, "u".data, "p".data⟩ = .propagated (.other "ValueError".data) :=
  (setup_translates_exactly_two_exceptions
      (fun _ => .error (.other "ValueError".data))
      ⟨"h".data, "u".data, "p".data⟩).1 "ValueError".data rfl

/-! ### Unique-ID migration (`_update_unique_id`) -/

/-- Python's substring containment `pat in s` on strings:
`containsSub s pat` holds when `pat` occurs contiguously inside `s`. -/
def containsSub (s pat : List Char) : Prop := ∃ l r, l ++ pat ++ r = s

instance containsSub.inst (s pat : List Char) : Decidable (containsSub s pat) :=
  decidable_of_iff (pat <:+: s) Iff.rfl

theorem containsSub_append_self (s pat : List Char) : containsSub (s ++ pat) pat :=
  ⟨s, [], by simp⟩

theorem mem_of_containsSub {s pat : List Char} {a : Char}
    (h : containsSub s pat) (ha : a ∈ pat) : a ∈ s := by
  obtain ⟨l, r, rfl⟩ := h
  simp [ha]

theorem containsSub_of_mem {s : List Char} {a : Char} (h : a ∈ s) :
    containsSub s [a] := by
  obtain ⟨l, r, rfl⟩ := List.append_of_mem h
  exact ⟨l, r, by simp⟩

/-- Host entity-registry entry: the fields `_update_unique_id` reads
(`unique_id`, `unit_of_measurement`, `domain`). -/
structure RegistryEntry where
  unique_id : List Char
  unit_of_measurement : Option (List Char)
  domain : List Char
deriving DecidableEq

/-- The migration callback `_update_unique_id` defined inside
`async_setup_entry`: returns the value of the `new_unique_id` field of
the returned dict, or `none` when the Python function returns `None`. -/
def _update_unique_id (entry : RegistryEntry) : Option (List Char) :=
  if entry.unit_of_measurement = some CELSIUS ∧
      ¬ containsSub entry.unique_id "_temperature".data then
    some (entry.unique_id ++ "_temperature".data)
  else if entry.domain = BINARY_SENSOR_DOMAIN ∧
      ¬ containsSub entry.unique_id "_".data then
    some (entry.unique_id ++ "_alarm".data)
  else none

/-- C3: `_update_unique_id` returns a rename exactly under the stated
field conditions: Celsius unit and no `_temperature` substring appends
`_temperature`; otherwise binary-sensor domain with no underscore
appends `_alarm`; otherwise no change. -/
theorem update_unique_id_exact_conditions (e : RegistryEntry) :
    (e.unit_of_measurement = some CELSIUS ∧
        ¬ containsSub e.unique_id "_temperature".data →
      _update_unique_id e = some (e.unique_id ++ "_temperature".data)) ∧
    (¬ (e.unit_of_measurement = some CELSIUS ∧
        ¬ containsSub e.unique_id "_temperature".data) →
      e.domain = BINARY_SENSOR_DOMAIN ∧ ¬ containsSub e.unique_id "_".data →
      _update_unique_id e = some (e.unique_id ++ "_alarm".data)) ∧
    (¬ (e.unit_of_measurement = some CELSIUS ∧
        ¬ containsSub e.unique_id "_temperature".data) →
      ¬ (e.domain = BINARY_SENSOR_DOMAIN ∧ ¬ containsSub e.unique_id "_".data) →
      _update_unique_id e = none) := by
  unfold _update_unique_id
  refine ⟨fun h1 => ?_, fun h1 h2 => ?_, fun h1 h2 => ?_⟩
  · rw [if_pos h1]
  · rw [if_neg h1, if_pos h2]
  · rw [if_neg h1, if_neg h2]

/-- Witness for C3: a Celsius sensor entry gets `_temperature` appended. -/
theorem update_unique_id_exact_conditions_witness :
    _update_unique_id ⟨"ain12".data, some CELSIUS, "sensor".data⟩ =
      some ("ain12".data ++ "_temperature".data) :=
  (update_unique_id_exact_conditions
      ⟨"ain12".data, some CELSIUS, "sensor".data⟩).1 (by decide)

/-- C8: `_update_unique_id` is idempotent: applying the returned rename
and running the callback again on the renamed entry yields no further
change, since the appended suffix falsifies both rename conditions. -/
theorem update_unique_id_idempotent (e : RegistryEntry) (nid : List Char)
    (h : _update_unique_id e = some nid) :
    _update_unique_id { e with unique_id := nid } = none := by
  unfold _update_unique_id at h ⊢
  split_ifs at h with h1 h2
  · -- first branch fired: `nid = unique_id ++ "_temperature"`
    obtain rfl : e.unique_id ++ "_temperature".data = nid := by
      simpa using h
    split_ifs with g1 g2
    · exact absurd (containsSub_append_self _ _) g1.2
    · exact absurd (containsSub_of_mem (a := '_') (by simp)) g2.2
    · rfl
  · -- second branch fired: `nid = unique_id ++ "_alarm"`
    obtain rfl : e.unique_id ++ "_alarm".data = nid := by
      simpa using h
    have hunder : ¬ containsSub e.unique_id "_".data := h2.2
    split_ifs with g1 g2
    · -- the first condition already failed on `e`, and `"_temperature"`
      -- cannot occur in an underscore-free id, so the unit is not Celsius
      refine absurd ⟨g1.1, fun htemp => hunder ?_⟩ h1
      exact containsSub_of_mem (mem_of_containsSub htemp (by decide))
    · exact absurd (containsSub_of_mem (a := '_') (by simp)) g2.2
    · rfl

/-- Witness for C8: renaming a Celsius sensor entry once, the second run
changes nothing. -/
theorem update_unique_id_idempotent_witness :
    _update_unique_id ⟨"ain12".data ++ "_temperature".data, some CELSIUS,
      "sensor".data⟩ = none :=
  update_unique_id_idempotent ⟨"ain12".data, some CELSIUS, "sensor".data⟩
    ("ain12".data ++ "_temperature".data) (by decide)

/-! ### `FritzBoxEntity` unique id -/

/-- Host `EntityDescription`: only its `key` is read here. -/
structure EntityDescription where
  key : List Char
deriving DecidableEq

/-- `FritzBoxEntity.__init__`: the `_attr_unique_id` it assigns — with an
entity description, `f"{ain}_{entity_description.key}"`; without one, the
bare `ain`. -/
def FritzBoxEntity_unique_id (ain : List Char)
    (desc : Option EntityDescription) : List Char :=
  match desc with
  | some d => ain ++ "_".data ++ d.key
  | none => ain

/-- Counterexample to C5 as stated: two distinct (AIN, key) pairs that
produce the same unique ID, because the separator `'_'` can occur inside
an AIN or a key. -/
theorem unique_id_not_injective :
    FritzBoxEntity_unique_id "a_b".data (some ⟨"c".data⟩) =
      FritzBoxEntity_unique_id "a".data (some ⟨"b_c".data⟩) ∧
    ("a_b".data, "c".data) ≠ ("a".data, "b_c".data) := by
  decide

theorem append_sep_inj {a b k k' : List Char} (ha : '_' ∉ a) (hb : '_' ∉ b)
    (h : a ++ '_' :: k = b ++ '_' :: k') : a = b ∧ k = k' := by
  induction a generalizing b with
  | nil =>
    cases b with
    | nil => simpa using h
    | cons c bs =>
      simp only [List.nil_append, List.cons_append, List.cons.injEq] at h
      exact absurd (h.1 ▸ List.mem_cons_self c bs) hb
  | cons c as ih =>
    cases b with
    | nil =>
      simp only [List.cons_append, List.nil_append, List.cons.injEq] at h
      exact absurd (h.1 ▸ List.mem_cons_self c as) ha
    | cons c' bs =>
      simp only [List.cons_append, List.cons.injEq] at h
      obtain ⟨rfl, h⟩ := h
      have := ih (fun hm => ha (List.mem_cons_of_mem _ hm))
        (fun hm => hb (List.mem_cons_of_mem _ hm)) h
      exact ⟨by rw [this.1], this.2⟩

/-- C5 (amended): a `FritzBoxEntity` constructed with an entity
description has unique ID `AIN ++ "_" ++ key`; distinct (AIN, key) pairs
yield distinct unique IDs provided the AINs contain no underscore. -/
theorem unique_id_from_ain_and_key (ain ain' : List Char)
    (d d' : EntityDescription) (ha : '_' ∉ ain) (ha' : '_' ∉ ain') :
    FritzBoxEntity_unique_id ain (some d) = ain ++ "_".data ++ d.key ∧
    (FritzBoxEntity_unique_id ain (some d) =
        FritzBoxEntity_unique_id ain' (some d') →
      ain = ain' ∧ d.key = d'.key) := by
  refine ⟨rfl, fun h => ?_⟩
  simp only [FritzBoxEntity_unique_id, List.append_assoc] at h
  exact append_sep_inj ha ha' (by simpa using h)

/-- Witness for the amended C5 on concrete underscore-free AINs. -/
theorem unique_id_from_ain_and_key_witness :
    FritzBoxEntity_unique_id "ain1".data (some ⟨"temperature".data⟩) =
      "ain1".data ++ "_".data ++ "temperature".data ∧
    (FritzBoxEntity_unique_id "ain1".data (some ⟨"temperature".data⟩) =
        FritzBoxEntity_unique_id "ain2".data (some ⟨"temperature".data⟩) →
      "ain1".data = "ain2".data ∧ "temperature".data = "temperature".data) :=
  unique_id_from_ain_and_key "ain1".data "ain2".data
    ⟨"temperature".data⟩ ⟨"temperature".data⟩ (by decide) (by decide)

/-! ### Coordinator data and `FritzBoxDeviceEntity` -/

/-- Vendor device record (`pyfritzhome.FritzhomeDevice`): the fields this
module reads. `device_and_unit_id` splits the AIN into the main-device
part and an optional sub-device unit id. -/
structure FritzhomeDevice where
  name : List Char
  manufacturer : List Char
  productname : List Char
  fw_version : List Char
  present : Bool
  device_and_unit_id : List Char × Option (List Char)
deriving DecidableEq

/-- Vendor template record: only its identity matters here. -/
structure FritzhomeTemplate where
  name : List Char
deriving DecidableEq

/-- Coordinator poll data: dicts of devices and templates keyed by AIN. -/
structure CoordinatorData where
  devices : List (List Char × FritzhomeDevice)
  templates : List (List Char × FritzhomeTemplate)
deriving DecidableEq

/-- Python dict lookup `m[k]` on an association list (first binding wins). -/
def lookupKey {α : Type} (m : List (List Char × α)) (k : List Char) :
    Option α :=
  match m with
  | [] => none
  | p :: rest => if p.1 = k then some p.2 else lookupKey rest k

/-- `FritzBoxDeviceEntity.data`: `self.coordinator.data.devices[self.ain]`;
`none` models Python's `KeyError`. -/
def FritzBoxDeviceEntity_data (cd : CoordinatorData) (ain : List Char) :
    Option FritzhomeDevice :=
  lookupKey cd.devices ain

/-- `FritzBoxDeviceEntity.available`:
`super().available and self.data.present`, with the inherited
coordinator-level availability passed in as `superAvailable`. -/
def FritzBoxDeviceEntity_available (superAvailable : Bool)
    (cd : CoordinatorData) (ain : List Char) : Option Bool :=
  (FritzBoxDeviceEntity_data cd ain).map (fun d => superAvailable && d.present)

/-- C9: a device-backed entity is available only if the device record's
presence flag is true in the current poll data; an absent device renders
its entities unavailable regardless of coordinator availability. -/
theorem device_entity_available_requires_present (superAvailable : Bool)
    (cd : CoordinatorData) (ain : List Char) :
    (FritzBoxDeviceEntity_available superAvailable cd ain = some true →
      ∃ d, FritzBoxDeviceEntity_data cd ain = some d ∧ d.present = true) ∧
    (∀ d, FritzBoxDeviceEntity_data cd ain = some d → d.present = false →
      FritzBoxDeviceEntity_available superAvailable cd ain = some false) := by
  constructor
  · intro h
    unfold FritzBoxDeviceEntity_available at h
    cases hd : FritzBoxDeviceEntity_data cd ain with
    | none => rw [hd] at h; simp at h
    | some d =>
      rw [hd] at h
      simp at h
      exact ⟨d, rfl, h.2⟩
  · intro d hd hp
    unfold FritzBoxDeviceEntity_available
    rw [hd]
    simp [hp]

/-- Witness for C9 on a one-device poll with the device marked present. -/
theorem device_entity_available_requires_present_witness :
    ∃ d, FritzBoxDeviceEntity_data
        ⟨[("a1".data, ⟨"n".data, "m".data, "p".data, "f".data, true,
          ("a1".data, none)⟩)], []⟩ "a1".data = some d ∧ d.present = true :=
  (device_entity_available_requires_present true
      ⟨[("a1".data, ⟨"n".data, "m".data, "p".data, "f".data, true,
        ("a1".data, none)⟩)], []⟩ "a1".data).1 (by decide)

/-! ### `async_remove_config_entry_device` -/

/-- Python `k in dict` on an association list. -/
def containsKey {α : Type} (m : List (List Char × α)) (k : List Char) : Bool :=
  m.any (fun p => p.1 = k)

theorem containsKey_iff {α : Type} (m : List (List Char × α)) (k : List Char) :
    containsKey m k = true ↔ ∃ v, (k, v) ∈ m := by
  simp only [containsKey, List.any_eq_true, decide_eq_true_eq]
  constructor
  · rintro ⟨⟨k', v⟩, hp, rfl⟩
    exact ⟨v, hp⟩
  · rintro ⟨v, hv⟩
    exact ⟨(k, v), hv, rfl⟩

/-- Host device-registry entry: the fields this module reads or writes. -/
structure DeviceEntry where
  id : List Char
  name : Option (List Char)
  name_by_user : Option (List Char)
  identifiers : List (List Char × List Char)
  manufacturer : Option (List Char)
  model : Option (List Char)
  sw_version : Option (List Char)
deriving DecidableEq

/-- The identifier loop of `async_remove_config_entry_device`: return
`False` on the first identifier whose first component is `DOMAIN` and
whose second component is a key of the current devices or templates. -/
def removeDeviceLoop (cd : CoordinatorData) :
    List (List Char × List Char) → Bool
  | [] => true
  | ident :: rest =>
    if ident.1 = DOMAIN ∧
        (containsKey cd.devices ident.2 ∨ containsKey cd.templates ident.2) then
      false
    else
      removeDeviceLoop cd rest

/-- `async_remove_config_entry_device`, with the coordinator's current
poll data passed explicitly. -/
def async_remove_config_entry_device (cd : CoordinatorData)
    (device : DeviceEntry) : Bool :=
  removeDeviceLoop cd device.identifiers

theorem removeDeviceLoop_eq_false_iff (cd : CoordinatorData)
    (l : List (List Char × List Char)) :
    removeDeviceLoop cd l = false ↔
      ∃ p ∈ l, p.1 = DOMAIN ∧
        (containsKey cd.devices p.2 ∨ containsKey cd.templates p.2) := by
  induction l with
  | nil => simp [removeDeviceLoop]
  | cons i rest ih =>
    unfold removeDeviceLoop
    split_ifs with hc
    · exact iff_of_true rfl ⟨i, List.mem_cons_self _ _, hc⟩
    · rw [ih]
      constructor
      · rintro ⟨p, hp, hcond⟩
        exact ⟨p, List.mem_cons_of_mem _ hp, hcond⟩
      · rintro ⟨p, hp, hcond⟩
        rcases List.mem_cons.mp hp with rfl | hp
        · exact absurd hcond hc
        · exact ⟨p, hp, hcond⟩

/-- C4: removal is refused (returns `False`) exactly when some identifier
of the device has the integration domain as first component and its
second component (the AIN) is still a key of the coordinator's current
devices or templates; otherwise removal is allowed. -/
theorem remove_config_entry_device_iff (cd : CoordinatorData)
    (device : DeviceEntry) :
    async_remove_config_entry_device cd device = false ↔
      ∃ p ∈ device.identifiers, p.1 = DOMAIN ∧
        ((∃ d, (p.2, d) ∈ cd.devices) ∨ (∃ t, (p.2, t) ∈ cd.templates)) := by
  unfold async_remove_config_entry_device
  rw [removeDeviceLoop_eq_false_iff]
  constructor
  · rintro ⟨p, hp, hd, hin⟩
    exact ⟨p, hp, hd, by rwa [containsKey_iff, containsKey_iff] at hin⟩
  · rintro ⟨p, hp, hd, hin⟩
    exact ⟨p, hp, hd, by rwa [containsKey_iff, containsKey_iff]⟩

/-- Witness for C4: a device whose sole fritzbox identifier is still
polled is refused removal. -/
theorem remove_config_entry_device_iff_witness :
    async_remove_config_entry_device
      ⟨[("a1".data, ⟨"n".data, "m".data, "p".data, "f".data, true,
          ("a1".data, none)⟩)], []⟩
      ⟨"id1".data, none, none, [(DOMAIN, "a1".data)], none, none, none⟩ =
      false :=
  (remove_config_entry_device_iff
      ⟨[("a1".data, ⟨"n".data, "m".data, "p".data, "f".data, true,
          ("a1".data, none)⟩)], []⟩
      ⟨"id1".data, none, none, [(DOMAIN, "a1".data)], none, none, none⟩).mpr
    ⟨(DOMAIN, "a1".data), by decide, rfl,
      .inl ⟨⟨"n".data, "m".data, "p".data, "f".data, true,
        ("a1".data, none)⟩, by decide⟩⟩

/-- C10: a device none of whose identifiers has the integration domain as
first component is allowed to be removed, regardless of the poll data. -/
theorem remove_allowed_without_domain_identifier (cd : CoordinatorData)
    (device : DeviceEntry)
    (h : ∀ p ∈ device.identifiers, p.1 ≠ DOMAIN) :
    async_remove_config_entry_device cd device = true := by
  unfold async_remove_config_entry_device
  cases hfb : removeDeviceLoop cd device.identifiers with
  | false =>
    obtain ⟨p, hp, hd, -⟩ :=
      (removeDeviceLoop_eq_false_iff cd device.identifiers).mp hfb
    exact absurd hd (h p hp)
  | true => rfl

/-- Witness for C10: a foreign-domain device is removable even against
empty poll data. -/
theorem remove_allowed_without_domain_identifier_witness :
    async_remove_config_entry_device ⟨[], []⟩
      ⟨"id1".data, none, none, [("other".data, "a1".data)], none, none,
        none⟩ = true :=
  remove_allowed_without_domain_identifier ⟨[], []⟩
    ⟨"id1".data, none, none, [("other".data, "a1".data)], none, none, none⟩
    (by decide)

/-! ### Device-registry operations and the setup cleanup/pre-create phase

The host's device registry is modelled as a list of `DeviceEntry`
records; lookup matches by identifier (matching by `connections`, which
this module never relies on for the claims at hand, is not modelled),
and the registry id of a freshly created entry is modelled as the AIN it
was created for. -/

/-- Host device-registry state. -/
structure DeviceRegistry where
  entries : List DeviceEntry
deriving DecidableEq

/-- `dr.async_get_device(identifiers={ident})`: the first entry carrying
the identifier. -/
def async_get_device (reg : DeviceRegistry)
    (ident : List Char × List Char) : Option DeviceEntry :=
  reg.entries.find? (fun e => decide (ident ∈ e.identifiers))

/-- `dr.async_remove_device(device_id)`. -/
def async_remove_device (reg : DeviceRegistry) (device_id : List Char) :
    DeviceRegistry :=
  ⟨reg.entries.filter (fun e => decide (e.id ≠ device_id))⟩

/-- The field update `dr.async_get_or_create` performs on an existing
entry: the supplied name, manufacturer, model and firmware version are
written; identifiers are unchanged (the matched identifier is already
present, so merging it adds nothing). -/
def applyDeviceFields (name manufacturer model sw_version : List Char)
    (e : DeviceEntry) : DeviceEntry :=
  { e with
    name := some name
    manufacturer := some manufacturer
    model := some model
    sw_version := some sw_version }

/-- Update the first entry carrying `ident`, leaving the rest alone. -/
def updateFirstMatching (ident : List Char × List Char)
    (f : DeviceEntry → DeviceEntry) :
    List DeviceEntry → List DeviceEntry
  | [] => []
  | e :: rest =>
    if ident ∈ e.identifiers then f e :: rest
    else e :: updateFirstMatching ident f rest

/-- `dr.async_get_or_create(..., identifiers={(DOMAIN, ain)}, name=...,
manufacturer=..., model=..., sw_version=...)`: update the existing
matching entry, or append a fresh one. -/
def async_get_or_create (reg : DeviceRegistry) (ain : List Char)
    (name manufacturer model sw_version : List Char) : DeviceRegistry :=
  match async_get_device reg (DOMAIN, ain) with
  | some _ =>
    ⟨updateFirstMatching (DOMAIN, ain)
      (applyDeviceFields name manufacturer model sw_version) reg.entries⟩
  | none =>
    ⟨reg.entries ++ [⟨ain, some name, none, [(DOMAIN, ain)],
      some manufacturer, some model, some sw_version⟩]⟩

/-- Python truthiness of the optional sub-device unit id string
(`if fritz_device.device_and_unit_id[1]:`). -/
def truthyUnitId : Option (List Char) → Bool
  | none => false
  | some s => !s.isEmpty

/-- The registry ids collected in `devices_to_remove` during
`async_setup_entry`: for each polled device with a truthy sub-device
unit id, the id of the registry entry found under its AIN, if any. -/
def devices_to_remove (reg : DeviceRegistry)
    (devices : List (List Char × FritzhomeDevice)) : List (List Char) :=
  (devices.filter (fun p => truthyUnitId p.2.device_and_unit_id.2)).filterMap
    (fun p => (async_get_device reg (DOMAIN, p.1)).map (fun e => e.id))

/-- The obsolete-sub-device cleanup loop of `async_setup_entry`: remove
every collected entry. -/
def removeSubDevicePhase (reg : DeviceRegistry)
    (devices : List (List Char × FritzhomeDevice)) : DeviceRegistry :=
  (devices_to_remove reg devices).foldl async_remove_device reg

/-- One step of the main-device pre-create loop: `dr.async_get_or_create`
with the vendor record's name, manufacturer, product name and firmware
version. -/
def preCreateStep (r : DeviceRegistry) (p : List Char × FritzhomeDevice) :
    DeviceRegistry :=
  async_get_or_create r p.1 p.2.name p.2.manufacturer p.2.productname
    p.2.fw_version

/-- The main-device pre-create loop of `async_setup_entry`: one
`async_get_or_create` per polled device whose unit id is `None`. -/
def createMainDevicePhase (reg : DeviceRegistry)
    (devices : List (List Char × FritzhomeDevice)) : DeviceRegistry :=
  (devices.filter (fun p => p.2.device_and_unit_id.2.isNone)).foldl
    preCreateStep reg

/-- The device-registry portion of `async_setup_entry`: collect and
remove obsolete sub-device entries, then pre-create main entries. -/
def setupDeviceRegistryPhase (reg : DeviceRegistry)
    (devices : List (List Char × FritzhomeDevice)) : DeviceRegistry :=
  createMainDevicePhase (removeSubDevicePhase reg devices) devices

/-- Registry well-formedness: each entry carries at most one identifier
in the integration's domain (entries this integration creates carry
exactly one). -/
def wfEntry (e : DeviceEntry) : Prop :=
  ∀ p ∈ e.identifiers, ∀ q ∈ e.identifiers,
    p.1 = DOMAIN → q.1 = DOMAIN → p.2 = q.2

/-- All entries of the registry are well-formed. -/
def wfRegistry (reg : DeviceRegistry) : Prop :=
  ∀ e ∈ reg.entries, wfEntry e

theorem applyDeviceFields_identifiers (n m mo sw : List Char)
    (e : DeviceEntry) :
    (applyDeviceFields n m mo sw e).identifiers = e.identifiers := rfl

theorem async_remove_device_id_ne (reg : DeviceRegistry) (i : List Char) :
    ∀ e ∈ (async_remove_device reg i).entries, e.id ≠ i := by
  intro e he
  have := List.mem_filter.mp he
  simpa using this.2

theorem async_remove_device_subset (reg : DeviceRegistry) (i : List Char) :
    ∀ e ∈ (async_remove_device reg i).entries, e ∈ reg.entries := by
  intro e he
  exact List.mem_of_mem_filter he

theorem foldl_remove_subset (l : List (List Char)) (reg : DeviceRegistry) :
    ∀ e ∈ (l.foldl async_remove_device reg).entries, e ∈ reg.entries := by
  induction l generalizing reg with
  | nil => intro e he; exact he
  | cons i rest ih =>
    intro e he
    rw [List.foldl_cons] at he
    exact async_remove_device_subset reg i e (ih (async_remove_device reg i) e he)

theorem foldl_remove_id_ne (l : List (List Char)) (reg : DeviceRegistry)
    (i : List Char) (hi : i ∈ l) :
    ∀ e ∈ (l.foldl async_remove_device reg).entries, e.id ≠ i := by
  induction l generalizing reg with
  | nil => cases hi
  | cons j rest ih =>
    intro e he
    rw [List.foldl_cons] at he
    rcases List.mem_cons.mp hi with rfl | hi
    · exact async_remove_device_id_ne reg i e
        (foldl_remove_subset rest (async_remove_device reg i) e he)
    · exact ih (async_remove_device reg j) hi e he

theorem mem_devices_to_remove {reg : DeviceRegistry}
    {devices : List (List Char × FritzhomeDevice)} {ain : List Char}
    {d : FritzhomeDevice} {e : DeviceEntry} (hmem : (ain, d) ∈ devices)
    (ht : truthyUnitId d.device_and_unit_id.2 = true)
    (hfound : async_get_device reg (DOMAIN, ain) = some e) :
    e.id ∈ devices_to_remove reg devices := by
  unfold devices_to_remove
  rw [List.mem_filterMap]
  exact ⟨(ain, d), List.mem_filter.mpr ⟨hmem, by simpa using ht⟩,
    by rw [hfound]; rfl⟩

theorem find_updateFirstMatching_self (ident : List Char × List Char)
    (n m mo sw : List Char) (l : List DeviceEntry) :
    (updateFirstMatching ident (applyDeviceFields n m mo sw) l).find?
        (fun e => decide (ident ∈ e.identifiers)) =
      (l.find? (fun e => decide (ident ∈ e.identifiers))).map
        (applyDeviceFields n m mo sw) := by
  induction l with
  | nil => rfl
  | cons e rest ih =>
    unfold updateFirstMatching
    split_ifs with hmem
    · rw [List.find?_cons_of_pos _
          (by simp [applyDeviceFields_identifiers]; exact hmem),
        List.find?_cons_of_pos _ (by simpa using hmem)]
      rfl
    · rw [List.find?_cons_of_neg _ (by simpa using hmem),
        List.find?_cons_of_neg _ (by simpa using hmem)]
      exact ih

theorem find_updateFirstMatching_other (ident ident' : List Char × List Char)
    (n m mo sw : List Char) (l : List DeviceEntry)
    (hsep : ∀ e ∈ l, ident' ∈ e.identifiers → ident ∉ e.identifiers) :
    (updateFirstMatching ident' (applyDeviceFields n m mo sw) l).find?
        (fun e => decide (ident ∈ e.identifiers)) =
      l.find? (fun e => decide (ident ∈ e.identifiers)) := by
  induction l with
  | nil => rfl
  | cons e rest ih =>
    unfold updateFirstMatching
    split_ifs with hmem
    · have hno : ident ∉ e.identifiers := hsep e (List.mem_cons_self _ _) hmem
      rw [List.find?_cons_of_neg _
          (by simp [applyDeviceFields_identifiers]; exact hno),
        List.find?_cons_of_neg _ (by simpa using hno)]
    · by_cases hid : ident ∈ e.identifiers
      · rw [List.find?_cons_of_pos _ (by simpa using hid),
          List.find?_cons_of_pos _ (by simpa using hid)]
      · rw [List.find?_cons_of_neg _ (by simpa using hid),
          List.find?_cons_of_neg _ (by simpa using hid)]
        exact ih (fun x hx => hsep x (List.mem_cons_of_mem _ hx))

theorem mem_updateFirstMatching {ident : List Char × List Char}
    {f : DeviceEntry → DeviceEntry} {l : List DeviceEntry} {x : DeviceEntry}
    (hx : x ∈ updateFirstMatching ident f l) :
    ∃ e ∈ l, x = e ∨ x = f e := by
  induction l with
  | nil => cases hx
  | cons e rest ih =>
    unfold updateFirstMatching at hx
    split_ifs at hx with hmem
    · rcases List.mem_cons.mp hx with rfl | hx
      · exact ⟨e, List.mem_cons_self _ _, Or.inr rfl⟩
      · exact ⟨x, List.mem_cons_of_mem _ hx, Or.inl rfl⟩
    · rcases List.mem_cons.mp hx with rfl | hx
      · exact ⟨x, List.mem_cons_self _ _, Or.inl rfl⟩
      · obtain ⟨e', he', h⟩ := ih hx
        exact ⟨e', List.mem_cons_of_mem _ he', h⟩

theorem get_or_create_found (reg : DeviceRegistry)
    (ain n m mo sw : List Char) :
    ∃ e, async_get_device (async_get_or_create reg ain n m mo sw)
        (DOMAIN, ain) = some e ∧
      e.name = some n ∧ e.manufacturer = some m ∧ e.model = some mo ∧
      e.sw_version = some sw := by
  unfold async_get_or_create
  cases hf : async_get_device reg (DOMAIN, ain) with
  | some e₀ =>
    refine ⟨applyDeviceFields n m mo sw e₀, ?_, rfl, rfl, rfl, rfl⟩
    unfold async_get_device at hf ⊢
    rw [find_updateFirstMatching_self, hf]
    rfl
  | none =>
    refine ⟨⟨ain, some n, none, [(DOMAIN, ain)], some m, some mo, some sw⟩,
      ?_, rfl, rfl, rfl, rfl⟩
    unfold async_get_device at hf ⊢
    rw [List.find?_append, hf]
    simp

theorem get_or_create_frame (reg : DeviceRegistry)
    (ain ain' n m mo sw : List Char) (hne : ain ≠ ain')
    (hwf : wfRegistry reg) :
    async_get_device (async_get_or_create reg ain' n m mo sw)
        (DOMAIN, ain) = async_get_device reg (DOMAIN, ain) := by
  unfold async_get_or_create
  cases hf : async_get_device reg (DOMAIN, ain') with
  | some e₀ =>
    unfold async_get_device
    exact find_updateFirstMatching_other (DOMAIN, ain) (DOMAIN, ain') n m mo sw
      reg.entries
      (fun e he h' h => hne (hwf e he (DOMAIN, ain) h (DOMAIN, ain') h' rfl rfl))
  | none =>
    unfold async_get_device
    rw [List.find?_append]
    have : (([⟨ain', some n, none, [(DOMAIN, ain')], some m, some mo,
        some sw⟩] : List DeviceEntry).find?
        (fun e => decide ((DOMAIN, ain) ∈ e.identifiers))) = none := by
      simp [hne]
    rw [this, Option.or_none]

theorem wf_get_or_create (reg : DeviceRegistry) (ain n m mo sw : List Char)
    (hwf : wfRegistry reg) :
    wfRegistry (async_get_or_create reg ain n m mo sw) := by
  unfold async_get_or_create
  cases hf : async_get_device reg (DOMAIN, ain) with
  | some e₀ =>
    intro x hx
    obtain ⟨e, he, hcase⟩ := mem_updateFirstMatching hx
    rcases hcase with h | h
    · subst h; exact hwf _ he
    · subst h
      intro p hp q hq
      rw [applyDeviceFields_identifiers] at hp hq
      exact hwf _ he p hp q hq
  | none =>
    intro x hx
    rcases List.mem_append.mp hx with hx | hx
    · exact hwf x hx
    · intro p hp q hq
      simp only [List.mem_singleton] at hx
      subst hx
      simp only [List.mem_singleton] at hp hq
      subst hp; subst hq
      intro _ _; rfl

theorem wf_preCreateStep (reg : DeviceRegistry)
    (p : List Char × FritzhomeDevice) (hwf : wfRegistry reg) :
    wfRegistry (preCreateStep reg p) :=
  wf_get_or_create reg p.1 p.2.name p.2.manufacturer p.2.productname
    p.2.fw_version hwf

theorem wf_foldl_preCreate (L : List (List Char × FritzhomeDevice))
    (reg : DeviceRegistry) (hwf : wfRegistry reg) :
    wfRegistry (L.foldl preCreateStep reg) := by
  induction L generalizing reg with
  | nil => exact hwf
  | cons p rest ih =>
    rw [List.foldl_cons]
    exact ih (preCreateStep reg p) (wf_preCreateStep reg p hwf)

theorem foldl_preCreate_frame (L : List (List Char × FritzhomeDevice))
    (reg : DeviceRegistry) (ain : List Char)
    (hnotin : ain ∉ L.map Prod.fst) (hwf : wfRegistry reg) :
    async_get_device (L.foldl preCreateStep reg) (DOMAIN, ain) =
      async_get_device reg (DOMAIN, ain) := by
  induction L generalizing reg with
  | nil => rfl
  | cons p rest ih =>
    rw [List.foldl_cons]
    have hne : ain ≠ p.1 := by
      intro h
      refine hnotin ?_
      rw [h, List.map_cons]
      exact List.mem_cons_self _ _
    rw [ih (preCreateStep reg p)
        (fun h => hnotin (List.mem_cons_of_mem _ h))
        (wf_preCreateStep reg p hwf)]
    exact get_or_create_frame reg ain p.1 p.2.name p.2.manufacturer
      p.2.productname p.2.fw_version hne hwf

theorem foldl_preCreate_fields (L : List (List Char × FritzhomeDevice))
    (reg : DeviceRegistry) (hwf : wfRegistry reg)
    (hnd : (L.map Prod.fst).Nodup) :
    ∀ ain d, (ain, d) ∈ L →
      ∃ e, async_get_device (L.foldl preCreateStep reg) (DOMAIN, ain) =
          some e ∧
        e.name = some d.name ∧ e.manufacturer = some d.manufacturer ∧
        e.model = some d.productname ∧ e.sw_version = some d.fw_version := by
  induction L generalizing reg with
  | nil => intro ain d h; cases h
  | cons p rest ih =>
    intro ain d hmem
    rw [List.foldl_cons]
    rcases List.mem_cons.mp hmem with heq | hmem
    · obtain rfl : p = (ain, d) := heq.symm
      have hnotin : ain ∉ rest.map Prod.fst := by
        rw [List.map_cons] at hnd
        exact (List.nodup_cons.mp hnd).1
      obtain ⟨e, he, hfields⟩ :=
        get_or_create_found reg ain d.name d.manufacturer d.productname
          d.fw_version
      refine ⟨e, ?_, hfields⟩
      rw [foldl_preCreate_frame rest (preCreateStep reg (ain, d)) ain hnotin
          (wf_preCreateStep reg (ain, d) hwf)]
      exact he
    · have hnd' : (rest.map Prod.fst).Nodup := by
        rw [List.map_cons] at hnd
        exact (List.nodup_cons.mp hnd).2
      exact ih (preCreateStep reg p) (wf_preCreateStep reg p hwf) hnd'
        ain d hmem

/-- C7: during setup, every polled device with a truthy sub-device unit
id has the registry entry found under its AIN (if any) removed by the
cleanup loop; and after the pre-create loop, every polled device whose
unit id is `None` owns a registry entry under its AIN carrying the
vendor record's name, manufacturer, product name as model, and firmware
version, mirrored one-to-one. Hypotheses: the poll dict has distinct AIN
keys, and the starting registry carries at most one fritzbox identifier
per entry. -/
theorem setup_registry_removes_subdevices_and_creates_main
    (reg : DeviceRegistry) (devices : List (List Char × FritzhomeDevice))
    (hwf : wfRegistry reg) (hnd : (devices.map Prod.fst).Nodup) :
    (∀ ain d e, (ain, d) ∈ devices →
        truthyUnitId d.device_and_unit_id.2 = true →
        async_get_device reg (DOMAIN, ain) = some e →
        ∀ e' ∈ (removeSubDevicePhase reg devices).entries, e'.id ≠ e.id) ∧
    (∀ ain d, (ain, d) ∈ devices → d.device_and_unit_id.2 = none →
        ∃ e, async_get_device (setupDeviceRegistryPhase reg devices)
            (DOMAIN, ain) = some e ∧
          e.name = some d.name ∧ e.manufacturer = some d.manufacturer ∧
          e.model = some d.productname ∧
          e.sw_version = some d.fw_version) := by
  constructor
  · intro ain d e hmem ht hfound e' he'
    exact foldl_remove_id_ne (devices_to_remove reg devices) reg e.id
      (mem_devices_to_remove hmem ht hfound) e' he'
  · intro ain d hmem hunit
    unfold setupDeviceRegistryPhase createMainDevicePhase
    refine foldl_preCreate_fields
      (devices.filter (fun p => p.2.device_and_unit_id.2.isNone))
      (removeSubDevicePhase reg devices) ?_ ?_ ain d ?_
    · intro e he
      exact hwf e (foldl_remove_subset _ reg e he)
    · exact List.Nodup.sublist
        (List.Sublist.map Prod.fst (List.filter_sublist devices)) hnd
    · exact List.mem_filter.mpr ⟨hmem, by simp [hunit]⟩

/-- Witness for C7: a concrete registry holding an obsolete sub-device
entry and a foreign entry; after cleanup only the foreign entry is left. -/
theorem setup_registry_removes_subdevices_and_creates_main_witness :
    (⟨"oid".data, none, none, [("other".data, "x".data)], none, none,
        none⟩ : DeviceEntry).id ≠
      (⟨"rid".data, none, none, [(DOMAIN, "a21".data)], none, none,
        none⟩ : DeviceEntry).id :=
  (setup_registry_removes_subdevices_and_creates_main
      ⟨[⟨"rid".data, none, none, [(DOMAIN, "a21".data)], none, none, none⟩,
        ⟨"oid".data, none, none, [("other".data, "x".data)], none, none,
          none⟩]⟩
      [("a21".data, ⟨"Sub".data, "AVM".data, "P".data, "1".data, true,
          ("a2".data, some "1".data)⟩),
        ("a1".data, ⟨"Main".data, "AVM".data, "P".data, "1".data, true,
          ("a1".data, none)⟩)]
      (by unfold wfRegistry wfEntry; decide) (by decide)).1
    "a21".data
    ⟨"Sub".data, "AVM".data, "P".data, "1".data, true,
      ("a2".data, some "1".data)⟩
    ⟨"rid".data, none, none, [(DOMAIN, "a21".data)], none, none, none⟩
    (by decide) (by decide) (by decide)
    ⟨"oid".data, none, none, [("other".data, "x".data)], none, none, none⟩
    (by decide)

end Fritzbox
